import Mathlib

set_option maxRecDepth 8192

/-!
Shallow embedding of src/src/server.py (a small HTTP server that serves
static assets and accepts multipart GLTF/GLB uploads, forwarding them to a
stubbed video-generation collaborator).

Conventions of the embedding:
* Paths are strings; joined filesystem paths are lists of segments.
* The filesystem is an association list from canonical absolute paths
  (segment lists containing no "", "." or "..") to the bytes of the regular
  file stored there; directories and symbolic links are not modelled, and
  OS-level resolution of ".." is purely lexical (`osResolve`).
* Machine strings are Lean `String`s; bytes are `List Nat` (each < 256).
* The Python library functions the server calls (posixpath.normpath,
  pathlib name/suffix, cgi.parse_header main value, str.split, str.strip,
  str.lower for ASCII, json.dumps with default separators and ensure_ascii,
  str.encode utf-8) are embedded below, faithful to CPython semantics on the
  character data this server handles.
* The scratch uploads directory is a list of file names; mkstemp is
  modelled by a caller-supplied fresh base name, to which the validated
  extension is appended, exactly as mkstemp(suffix=file_suffix) names files.
* A Python exception escaping the handler is `Except.error`; a normally
  sent response is `Except.ok`.
-/

namespace VeoServer

/-- Python str.split(sep) for a one-character separator, over char lists. -/
def splitChar (sep : Char) (cs : List Char) : List (List Char) :=
  cs.foldr
    (fun c acc =>
      if c = sep then [] :: acc
      else
        match acc with
        | [] => [[c]]
        | g :: gs => (c :: g) :: gs)
    [[]]

/-- Python str.split(sep) returning strings. -/
def pySplit (sep : Char) (s : String) : List String :=
  (splitChar sep s.toList).map String.mk

/-- Everything before the first question mark: url_path.split("?", 1)[0]. -/
def pyStripQuery (s : String) : String :=
  String.mk (s.toList.takeWhile (fun c => !(c == '?')))

/-- Python str.lstrip("/"): drop every leading slash. -/
def pyLstripSlash (s : String) : String :=
  String.mk (s.toList.dropWhile (fun c => c == '/'))

/-- ASCII whitespace stripped by Python str.strip() (the data handled here
is ASCII, where Python and this definition agree). -/
def isPySpace (c : Char) : Bool :=
  c == ' ' || c == '\t' || c == '\n' || c == '\x0d' || c == '\x0b' || c == '\x0c'

/-- Python str.strip() on ASCII data. -/
def pyStrip (s : String) : String :=
  String.mk (((s.toList.dropWhile isPySpace).reverse.dropWhile isPySpace).reverse)

/-- Python str.lower() restricted to ASCII letters (Unicode lowering of
non-ASCII letters never produces the ASCII extensions compared against). -/
def lowerChar (c : Char) : Char :=
  if 'A' ≤ c ∧ c ≤ 'Z' then Char.ofNat (c.toNat + 32) else c

/-- Python str.lower() on ASCII data. -/
def strLower (s : String) : String :=
  String.mk (s.toList.map lowerChar)

/-- Join a list of strings with a separator, as Python sep.join(parts). -/
def joinSep (sep : String) : List String → String
  | [] => ""
  | [x] => x
  | x :: y :: xs => x ++ sep ++ joinSep sep (y :: xs)

/-- Number of initial slashes posixpath.normpath keeps: 1 normally, 2 for a
double (but not triple) leading slash, 0 for a relative path. -/
def npInitialSlashes (cs : List Char) : Nat :=
  if cs.take 1 = ['/'] then
    if cs.take 2 = ['/', '/'] ∧ cs.take 3 ≠ ['/', '/', '/'] then 2 else 1
  else 0

/-- One step of the posixpath.normpath component loop: drop empty and "."
components; append a component unless it is a ".." that cancels a previous
real component (leading ".." components of a relative path are kept). -/
def npStep (isAbs : Bool) (acc : List String) (comp : String) : List String :=
  if comp = "" ∨ comp = "." then acc
  else if comp ≠ ".." ∨ (isAbs = false ∧ acc = []) ∨ acc.getLast? = some ".." then
    acc ++ [comp]
  else acc.dropLast

/-- posixpath.normpath, as CPython implements it. -/
def normpath (p : String) : String :=
  if p = "" then "."
  else
    let cs := p.toList
    let slashes := npInitialSlashes cs
    let comps := ((splitChar '/' cs).map String.mk).foldl (npStep (slashes != 0)) []
    let res := String.mk (List.replicate slashes '/') ++ joinSep "/" comps
    if res = "" then "." else res

/-- VeoRequestHandler._translate_path: strip the query string, strip leading
slashes, then normalise (source lines 141-143). -/
def translate_path (url_path : String) : String :=
  normpath (pyLstripSlash (pyStripQuery url_path))

/-- The segments pathlib keeps when parsing a relative path string: split on
slashes and drop empty and "." components (".." is kept as a component). -/
def pathSegsOfRel (s : String) : List String :=
  (pySplit '/' s).filter (fun c => !(c == "" || c == "."))

/-- pathlib PurePath.name of a joined path given as segments: the last
component that is not empty and not ".", or the empty string. -/
def pathListName (l : List String) : String :=
  ((l.filter (fun c => !(c == "" || c == "."))).getLast?).getD ""

/-- pathlib Path(s).name for a path string. -/
def pyName (s : String) : String :=
  pathListName (pySplit '/' s)

/-- pathlib PurePath.suffix of a file name: from the last dot, provided the
dot is neither the first nor the last character of the name. -/
def pySuffix (name : String) : String :=
  let cs := name.toList
  match cs.reverse.findIdx? (fun c => c == '.') with
  | none => ""
  | some j =>
    let i := cs.length - 1 - j
    if 0 < i ∧ i + 1 < cs.length then String.mk (cs.drop i) else ""

/-- Lexical kernel-style resolution of a segment list against the
filesystem root: "." and empty segments vanish, ".." pops (clamped at the
root), everything else descends.  Models stat() on a symlink-free tree. -/
def osStep (acc : List String) (comp : String) : List String :=
  if comp = "" ∨ comp = "." then acc
  else if comp = ".." then acc.dropLast
  else acc ++ [comp]

/-- Resolve a joined path (given as segments from the root) lexically. -/
def osResolve (l : List String) : List String :=
  l.foldl osStep []

/-- Whether a resolved absolute path lies at or below a directory. -/
def underRoot (pub p : List String) : Bool :=
  pub == p.take pub.length

/-- VeoRequestHandler._guess_type (source lines 145-160), applied to the
suffix of the requested path. -/
def guess_type (sfx : String) : String :=
  if sfx = ".css" then "text/css"
  else if sfx = ".js" then "application/javascript"
  else if sfx = ".html" ∨ sfx = ".htm" then "text/html"
  else if sfx = ".json" then "application/json"
  else if sfx = ".png" then "image/png"
  else if sfx = ".jpg" ∨ sfx = ".jpeg" then "image/jpeg"
  else if sfx = ".svg" then "image/svg+xml"
  else "application/octet-stream"

/-- An HTTP response: status code, the headers the handler itself sends
(framework-added Server and Date headers are not modelled), and body. -/
structure Response where
  status : Nat
  headers : List (String × String)
  body : List Nat
  deriving DecidableEq, Repr

/-- UTF-8 encoding of one code point, as str.encode("utf-8"). -/
def utf8EncodeCharNat (n : Nat) : List Nat :=
  if n < 128 then [n]
  else if n < 2048 then [192 + n / 64, 128 + n % 64]
  else if n < 65536 then [224 + n / 4096, 128 + n / 64 % 64, 128 + n % 64]
  else [240 + n / 262144, 128 + n / 4096 % 64, 128 + n / 64 % 64, 128 + n % 64]

/-- str.encode("utf-8") as a byte list. -/
def utf8Bytes (s : String) : List Nat :=
  (s.toList.map (fun c => utf8EncodeCharNat c.toNat)).flatten

/-- BaseHTTPRequestHandler.send_error: the status code and the headers it
sends.  The bytes of the framework HTML error page are abstracted to a
canonical encoding of the code and message; no claim inspects them. -/
def send_error (code : Nat) (message : String) : Response :=
  { status := code
    headers := [("Content-Type", "text/html;charset=utf-8"), ("Connection", "close")]
    body := utf8Bytes ("Error " ++ toString code ++ ": " ++ message) }

/-- VeoRequestHandler.do_OPTIONS (source lines 49-55): 204 with the three
CORS headers and no body, for any request path. -/
def do_OPTIONS (_reqPath : String) : Response :=
  { status := 204
    headers := [("Access-Control-Allow-Origin", "*"),
                ("Access-Control-Allow-Methods", "POST, GET, OPTIONS"),
                ("Access-Control-Allow-Headers", "Content-Type")]
    body := [] }

/-- The filesystem: canonical absolute paths of regular files with their
bytes. -/
abbrev Fs := List (List String × List Nat)

/-- The Path the GET handler builds before the existence check (source
lines 60-64): PUBLIC_DIR / "index.html" for "/" or "", else
PUBLIC_DIR / _translate_path(path).  `pub` is the segment list of the
already-resolved PUBLIC_DIR. -/
def joinedPath (pub : List String) (reqPath : String) : List String :=
  if reqPath = "/" ∨ reqPath = "" then pub ++ ["index.html"]
  else pub ++ pathSegsOfRel (translate_path reqPath)

/-- VeoRequestHandler.do_GET (source lines 58-75): 404 when the resolved
path is not an existing regular file, otherwise 200 with the common
headers, the guessed content type, and the file bytes. -/
def do_GET (pub : List String) (fs : Fs) (reqPath : String) : Response :=
  let joined := joinedPath pub reqPath
  match List.lookup (osResolve joined) fs with
  | none => send_error 404 "File not found"
  | some bytes =>
    { status := 200
      headers := [("Access-Control-Allow-Origin", "*"),
                  ("Cache-Control", "no-cache"),
                  ("Content-Type", guess_type (pySuffix (pathListName joined)))]
      body := bytes }

/-- generate_video_using_veo (source lines 26-43): the stubbed collaborator
payload.  `prompt or "(default prompt)"` takes the fallback on None and on
the empty string (the only falsy str). -/
structure Payload where
  videoUrl : String
  jobId : String
  status : String
  usedPrompt : String
  sourceModel : String
  deriving DecidableEq, Repr

def generate_video_using_veo (file_path : String) (prompt : Option String) : Payload :=
  { videoUrl := "https://example.com/generated-veo-ad.mp4"
    jobId := "demo-job-1234"
    status := "queued"
    usedPrompt :=
      match prompt with
      | some p => if p = "" then "(default prompt)" else p
      | none => "(default prompt)"
    sourceModel := pyName file_path }

/-- json.dumps escaping of one character (default ensure_ascii=True). -/
def escChar (c : Char) : String :=
  if c = '\"' then "\\\""
  else if c = '\\' then "\\\\"
  else if c = '\n' then "\\n"
  else if c = '\x0d' then "\\r"
  else if c = '\t' then "\\t"
  else if c = '\x08' then "\\b"
  else if c = '\x0c' then "\\f"
  else if 32 ≤ c.toNat ∧ c.toNat ≤ 126 then String.mk [c]
  else if c.toNat < 65536 then "\\u" ++ hex4 c.toNat
  else
    let v := c.toNat - 65536
    "\\u" ++ hex4 (55296 + v / 1024) ++ "\\u" ++ hex4 (56320 + v % 1024)
where
  hexDigit (n : Nat) : Char :=
    if n < 10 then Char.ofNat (48 + n) else Char.ofNat (87 + n)
  hex4 (n : Nat) : String :=
    String.mk [hexDigit (n / 4096 % 16), hexDigit (n / 256 % 16),
               hexDigit (n / 16 % 16), hexDigit (n % 16)]

/-- A JSON string literal as json.dumps renders it. -/
def jsonStr (s : String) : String :=
  "\"" ++ String.join (s.toList.map escChar) ++ "\""

/-- json.dumps of the payload dict, default separators, insertion order. -/
def jsonDumps (p : Payload) : String :=
  "\x7b\"videoUrl\": " ++ jsonStr p.videoUrl ++
  ", \"jobId\": " ++ jsonStr p.jobId ++
  ", \"status\": " ++ jsonStr p.status ++
  ", \"usedPrompt\": " ++ jsonStr p.usedPrompt ++
  ", \"sourceModel\": " ++ jsonStr p.sourceModel ++ "\x7d"

/-- A multipart field as cgi.FieldStorage exposes it: the filename
attribute (None for a non-file part) and the uploaded bytes. -/
structure UploadField where
  filename : Option String
  content : List Nat
  deriving DecidableEq, Repr

/-- The parsed multipart form: form["model"] when present, and
form.getfirst("prompt") when present. -/
structure FormData where
  model : Option UploadField
  prompt : Option String
  deriving DecidableEq, Repr

/-- The parts of the request do_POST reads: path, raw Content-Type header
(None when absent), declared Content-Length (None when absent, otherwise
its numeric value), and the parsed form. -/
structure PostInput where
  path : String
  contentTypeHeader : Option String
  contentLength : Option Nat
  form : FormData
  deriving DecidableEq, Repr

/-- A Python exception escaping the handler. -/
structure PyExc where
  msg : String
  deriving DecidableEq, Repr

/-- The main value of cgi.parse_header: the first semicolon-separated part,
stripped (parse_header does not change its case). -/
def ctypeMain (h : String) : String :=
  pyStrip ((pySplit ';' h).headD "")

/-- Source lines 101-130: the part of do_POST after the multipart body has
been parsed.  `uploadDir` is the segment list of UPLOAD_DIR, `tempBase` the
fresh base name mkstemp chooses (the validated extension is appended, as
mkstemp(suffix=file_suffix) does), `scratch` the names present in the
uploads directory.  The collaborator call sits inside try/finally: the temp
file is unlinked (missing_ok=True) whether the call returns or raises. -/
def handle_parsed_form (veo : String → Option String → Except PyExc Payload)
    (uploadDir : List String) (tempBase : String) (scratch : List String)
    (form : FormData) : Except PyExc Response × List String :=
  match form.model with
  | none => (Except.ok (send_error 400 "Missing model file upload"), scratch)
  | some upload_field =>
    if upload_field.filename.getD "" = "" then
      (Except.ok (send_error 400 "Missing model file upload"), scratch)
    else
      let file_suffix := strLower (pySuffix (pyName (upload_field.filename.getD "")))
      if ¬ (file_suffix = ".gltf" ∨ file_suffix = ".glb") then
        (Except.ok (send_error 415 "Only GLTF/GLB files are supported"), scratch)
      else
        let prompt_field := form.prompt
        let temp_name := tempBase ++ file_suffix
        let temp_path := "/" ++ joinSep "/" (uploadDir ++ [temp_name])
        let scratch1 := temp_name :: scratch
        match veo temp_path prompt_field with
        | Except.error e => (Except.error e, scratch1.erase temp_name)
        | Except.ok response_payload =>
          let response_bytes := utf8Bytes (jsonDumps response_payload)
          (Except.ok
            { status := 200
              headers := [("Access-Control-Allow-Origin", "*"),
                          ("Cache-Control", "no-cache"),
                          ("Content-Type", "application/json"),
                          ("Content-Length", toString response_bytes.length)]
              body := response_bytes },
           scratch1.erase temp_name)

/-- VeoRequestHandler.do_POST (source lines 77-130), generic in the
collaborator so a failing call can be examined.  Returns the response (or
the escaping exception) and the final contents of the uploads directory. -/
def do_POST_generic (veo : String → Option String → Except PyExc Payload)
    (uploadDir : List String) (tempBase : String) (scratch : List String)
    (inp : PostInput) : Except PyExc Response × List String :=
  if inp.path ≠ "/api/generate" then
    (Except.ok (send_error 404 "Unknown endpoint"), scratch)
  else
    let ctype := ctypeMain (inp.contentTypeHeader.getD "")
    if ctype ≠ "multipart/form-data" then
      (Except.ok (send_error 400 "Expected multipart/form-data"), scratch)
    else if inp.contentLength.getD 0 > 100 * 1024 * 1024 then
      (Except.ok (send_error 413 "File too large"), scratch)
    else
      handle_parsed_form veo uploadDir tempBase scratch inp.form

/-- do_POST with the collaborator the source actually calls: the stub,
which always returns normally. -/
def do_POST (uploadDir : List String) (tempBase : String) (scratch : List String)
    (inp : PostInput) : Except PyExc Response × List String :=
  do_POST_generic (fun p pr => Except.ok (generate_video_using_veo p pr))
    uploadDir tempBase scratch inp

/-! ## Shared lemmas -/

/-- Reduction of do_POST_generic on a request whose path, content type and
declared length pass the three up-front checks: the handler proceeds to the
parsed form. -/
theorem do_POST_generic_passes_checks
    (veo : String → Option String → Except PyExc Payload)
    (uploadDir : List String) (tempBase : String) (scratch : List String)
    (cth : Option String) (cl : Option Nat) (form : FormData)
    (hct : ctypeMain (cth.getD "") = "multipart/form-data")
    (hcl : cl.getD 0 ≤ 104857600) :
    do_POST_generic veo uploadDir tempBase scratch
        { path := "/api/generate", contentTypeHeader := cth,
          contentLength := cl, form := form } =
      handle_parsed_form veo uploadDir tempBase scratch form := by
  unfold do_POST_generic
  try dsimp only
  rw [if_neg (by simp), if_neg (by simp [hct]), if_neg (by omega)]

/-- Every response handle_parsed_form sends has status 400, 415 or 200. -/
theorem handle_parsed_form_ok_status
    (veo : String → Option String → Except PyExc Payload)
    (uploadDir : List String) (tempBase : String) (scratch : List String)
    (form : FormData) (r : Response)
    (h : (handle_parsed_form veo uploadDir tempBase scratch form).1 = Except.ok r) :
    r.status = 400 ∨ r.status = 415 ∨ r.status = 200 := by
  unfold handle_parsed_form at h
  cases hm : form.model with
  | none => rw [hm] at h; cases h; exact Or.inl rfl
  | some f =>
    rw [hm] at h
    try dsimp only at h
    by_cases h1 : f.filename.getD "" = ""
    · rw [if_pos h1] at h; cases h; exact Or.inl rfl
    · rw [if_neg h1] at h
      try dsimp only at h
      by_cases h2 : ¬ (strLower (pySuffix (pyName (f.filename.getD ""))) = ".gltf" ∨
          strLower (pySuffix (pyName (f.filename.getD ""))) = ".glb")
      · rw [if_pos h2] at h; cases h; exact Or.inr (Or.inl rfl)
      · rw [if_neg h2] at h
        try dsimp only at h
        cases hv : veo ("/" ++ joinSep "/" (uploadDir ++
            [tempBase ++ strLower (pySuffix (pyName (f.filename.getD "")))])) form.prompt with
        | error e => rw [hv] at h; cases h
        | ok p => rw [hv] at h; cases h; exact Or.inr (Or.inr rfl)

/-! ## Claims -/

/-- C1: the spec demands that a GET whose path escapes the public root
after normalization be answered 404 and never leak an outside file.  The
source comment (line 63) states the normalization is there to prevent
directory traversal, but posixpath.normpath keeps the leading ".."
segments of a relative path, so GET /../../etc/passwd resolves to
/etc/passwd, outside the root /srv/public, and is served with 200 and the
file bytes. -/
theorem traversal_request_serves_file_outside_root :
    translate_path "/../../etc/passwd" = "../../etc/passwd" ∧
    osResolve (joinedPath ["srv", "public"] "/../../etc/passwd") = ["etc", "passwd"] ∧
    underRoot ["srv", "public"] ["etc", "passwd"] = false ∧
    (do_GET ["srv", "public"]
        [(["etc", "passwd"], [114, 111, 111, 116, 58]),
         (["srv", "public", "index.html"], [60])]
        "/../../etc/passwd").status = 200 ∧
    (do_GET ["srv", "public"]
        [(["etc", "passwd"], [114, 111, 111, 116, 58]),
         (["srv", "public", "index.html"], [60])]
        "/../../etc/passwd").body = [114, 111, 111, 116, 58] :=
  ⟨rfl, rfl, rfl, rfl, rfl⟩

/-- C2: whatever the request and whatever the collaborator does (returns
or raises), the uploads scratch directory afterwards holds exactly the
files it held before: the temp file written for the request is unlinked by
the finally block, and requests that fail validation never write one. -/
theorem post_scratch_dir_restored
    (veo : String → Option String → Except PyExc Payload)
    (uploadDir : List String) (tempBase : String) (scratch : List String)
    (inp : PostInput) :
    (do_POST_generic veo uploadDir tempBase scratch inp).2 = scratch := by
  unfold do_POST_generic
  split
  · rfl
  try dsimp only
  split
  · rfl
  split
  · rfl
  unfold handle_parsed_form
  cases hm : inp.form.model with
  | none => rfl
  | some f =>
    try dsimp only
    split
    · rfl
    try dsimp only
    split
    · rfl
    try dsimp only
    cases hv : veo ("/" ++ joinSep "/" (uploadDir ++
        [tempBase ++ strLower (pySuffix (pyName (f.filename.getD "")))])) inp.form.prompt with
    | error e => simp
    | ok p => simp

/-- C3: a POST /api/generate whose multipart upload declares a
Content-Length above 104857600 bytes is answered with exactly 413 and the
scratch directory is left untouched. -/
theorem oversized_content_length_gets_413
    (uploadDir : List String) (tempBase : String) (scratch : List String)
    (cth : Option String) (n : Nat) (form : FormData)
    (hct : ctypeMain (cth.getD "") = "multipart/form-data")
    (hn : 104857600 < n) :
    do_POST uploadDir tempBase scratch
        { path := "/api/generate", contentTypeHeader := cth,
          contentLength := some n, form := form } =
      (Except.ok (send_error 413 "File too large"), scratch) ∧
    (send_error 413 "File too large").status = 413 := by
  refine ⟨?_, rfl⟩
  unfold do_POST do_POST_generic
  try dsimp only
  rw [if_neg (by simp), if_neg (by simp [hct]), if_pos (by simpa using hn)]

/-- C4: a multipart POST /api/generate whose form lacks the model field,
or whose model field has an empty (or missing) filename, is answered with
exactly 400, and nothing is written to the scratch directory. -/
theorem missing_model_field_gets_400
    (uploadDir : List String) (tempBase : String) (scratch : List String)
    (cth : Option String) (cl : Option Nat) (form : FormData)
    (hct : ctypeMain (cth.getD "") = "multipart/form-data")
    (hcl : cl.getD 0 ≤ 104857600)
    (hm : form.model = none ∨ ∃ f, form.model = some f ∧ f.filename.getD "" = "") :
    do_POST uploadDir tempBase scratch
        { path := "/api/generate", contentTypeHeader := cth,
          contentLength := cl, form := form } =
      (Except.ok (send_error 400 "Missing model file upload"), scratch) ∧
    (send_error 400 "Missing model file upload").status = 400 := by
  refine ⟨?_, rfl⟩
  unfold do_POST
  rw [do_POST_generic_passes_checks _ _ _ _ _ _ _ hct hcl]
  unfold handle_parsed_form
  rcases hm with hnone | ⟨f, hf, hemp⟩
  · rw [hnone]
  · rw [hf]
    try dsimp only
    rw [if_pos hemp]

/-- C5: a multipart POST /api/generate whose model filename has an
extension other than .gltf or .glb (compared after lowercasing) is
answered with exactly 415, and nothing is written to the scratch
directory. -/
theorem bad_extension_gets_415
    (uploadDir : List String) (tempBase : String) (scratch : List String)
    (cth : Option String) (cl : Option Nat) (f : UploadField) (pr : Option String)
    (hct : ctypeMain (cth.getD "") = "multipart/form-data")
    (hcl : cl.getD 0 ≤ 104857600)
    (hfn : f.filename.getD "" ≠ "")
    (hext : ¬ (strLower (pySuffix (pyName (f.filename.getD ""))) = ".gltf" ∨
               strLower (pySuffix (pyName (f.filename.getD ""))) = ".glb")) :
    do_POST uploadDir tempBase scratch
        { path := "/api/generate", contentTypeHeader := cth,
          contentLength := cl, form := { model := some f, prompt := pr } } =
      (Except.ok (send_error 415 "Only GLTF/GLB files are supported"), scratch) ∧
    (send_error 415 "Only GLTF/GLB files are supported").status = 415 := by
  refine ⟨?_, rfl⟩
  unfold do_POST
  rw [do_POST_generic_passes_checks _ _ _ _ _ _ _ hct hcl]
  unfold handle_parsed_form
  try dsimp only
  rw [if_neg hfn]
  try dsimp only
  rw [if_pos hext]

/-- C6 counterexample: uploading a valid model named car.glb with prompt
"ad for a car" does NOT yield sourceModel "car.glb".  The handler passes
the temporary file path to the stub, so the response embeds the temp file
name (here tmpq1w2e3r4.glb for mkstemp base tmpq1w2e3r4), and the
serialized body differs from the one the claim predicts. -/
theorem upload_car_glb_sourceModel_is_temp_name :
    (do_POST ["app", "uploads"] "tmpq1w2e3r4" []
        { path := "/api/generate", contentTypeHeader := some "multipart/form-data",
          contentLength := some 1000,
          form := { model := some { filename := some "car.glb", content := [1, 2, 3] },
                    prompt := some "ad for a car" } }).1 =
      Except.ok
        { status := 200
          headers := [("Access-Control-Allow-Origin", "*"),
                      ("Cache-Control", "no-cache"),
                      ("Content-Type", "application/json"),
                      ("Content-Length", "166")]
          body := utf8Bytes (jsonDumps
            { videoUrl := "https://example.com/generated-veo-ad.mp4",
              jobId := "demo-job-1234", status := "queued",
              usedPrompt := "ad for a car", sourceModel := "tmpq1w2e3r4.glb" }) } ∧
    utf8Bytes (jsonDumps
        { videoUrl := "https://example.com/generated-veo-ad.mp4",
          jobId := "demo-job-1234", status := "queued",
          usedPrompt := "ad for a car", sourceModel := "tmpq1w2e3r4.glb" }) ≠
      utf8Bytes (jsonDumps
        { videoUrl := "https://example.com/generated-veo-ad.mp4",
          jobId := "demo-job-1234", status := "queued",
          usedPrompt := "ad for a car", sourceModel := "car.glb" }) :=
  ⟨rfl, by decide⟩

/-- C6 amended: the stub returns status "queued", sourceModel equal to the
base name of the file path it is given, and usedPrompt equal to the prompt
when a non-empty one was supplied and "(default prompt)" when the prompt
was absent or empty.  Because the handler hands the stub the temporary
file path, the HTTP response for an upload of car.glb embeds the temp file
base name (mkstemp base plus the preserved .glb extension), not
"car.glb". -/
theorem veo_stub_payload_spec (fp : String) (p : String) :
    (generate_video_using_veo fp (some p)).status = "queued" ∧
    (generate_video_using_veo fp none).status = "queued" ∧
    (generate_video_using_veo fp (some p)).sourceModel = pyName fp ∧
    (p ≠ "" → (generate_video_using_veo fp (some p)).usedPrompt = p) ∧
    (generate_video_using_veo fp none).usedPrompt = "(default prompt)" ∧
    generate_video_using_veo "car.glb" (some "ad for a car") =
      { videoUrl := "https://example.com/generated-veo-ad.mp4",
        jobId := "demo-job-1234", status := "queued",
        usedPrompt := "ad for a car", sourceModel := "car.glb" } ∧
    (do_POST ["app", "uploads"] "tmpq1w2e3r4" []
        { path := "/api/generate", contentTypeHeader := some "multipart/form-data",
          contentLength := some 1000,
          form := { model := some { filename := some "car.glb", content := [1, 2, 3] },
                    prompt := some "ad for a car" } }).1 =
      Except.ok
        { status := 200
          headers := [("Access-Control-Allow-Origin", "*"),
                      ("Cache-Control", "no-cache"),
                      ("Content-Type", "application/json"),
                      ("Content-Length", "166")]
          body := utf8Bytes (jsonDumps
            (generate_video_using_veo "/app/uploads/tmpq1w2e3r4.glb" (some "ad for a car"))) } := by
  refine ⟨rfl, rfl, rfl, ?_, rfl, rfl, rfl⟩
  intro hp
  unfold generate_video_using_veo
  try dsimp only
  rw [if_neg hp]

/-- C7: every OPTIONS request, whatever its path, is answered 204 with
exactly the three CORS headers and an empty body. -/
theorem options_preflight_response (reqPath : String) :
    do_OPTIONS reqPath =
      { status := 204
        headers := [("Access-Control-Allow-Origin", "*"),
                    ("Access-Control-Allow-Methods", "POST, GET, OPTIONS"),
                    ("Access-Control-Allow-Headers", "Content-Type")]
        body := [] } := rfl

/-- C8: a GET whose path resolves to an existing regular file under the
public root is answered 200 with the CORS origin, Cache-Control no-cache,
the content type the extension table dictates, and the file bytes
verbatim; the table maps css, js, html/htm, json, png, jpg/jpeg and svg to
their types and every other suffix to application/octet-stream. -/
theorem get_existing_file_success (pub : List String) (fs : Fs) (reqPath : String)
    (bytes : List Nat)
    (hfile : List.lookup (osResolve (joinedPath pub reqPath)) fs = some bytes)
    (_hroot : underRoot pub (osResolve (joinedPath pub reqPath)) = true) :
    do_GET pub fs reqPath =
      { status := 200
        headers := [("Access-Control-Allow-Origin", "*"),
                    ("Cache-Control", "no-cache"),
                    ("Content-Type", guess_type (pySuffix (pathListName (joinedPath pub reqPath))))]
        body := bytes } ∧
    guess_type ".css" = "text/css" ∧
    guess_type ".js" = "application/javascript" ∧
    guess_type ".html" = "text/html" ∧
    guess_type ".htm" = "text/html" ∧
    guess_type ".json" = "application/json" ∧
    guess_type ".png" = "image/png" ∧
    guess_type ".jpg" = "image/jpeg" ∧
    guess_type ".jpeg" = "image/jpeg" ∧
    guess_type ".svg" = "image/svg+xml" ∧
    (∀ sfx, sfx ≠ ".css" → sfx ≠ ".js" → sfx ≠ ".html" → sfx ≠ ".htm" →
      sfx ≠ ".json" → sfx ≠ ".png" → sfx ≠ ".jpg" → sfx ≠ ".jpeg" → sfx ≠ ".svg" →
      guess_type sfx = "application/octet-stream") := by
  refine ⟨?_, rfl, rfl, rfl, rfl, rfl, rfl, rfl, rfl, rfl, ?_⟩
  · unfold do_GET
    try dsimp only
    rw [hfile]
  · intro sfx h1 h2 h3 h4 h5 h6 h7 h8 h9
    simp [guess_type, h1, h2, h3, h4, h5, h6, h7, h8, h9]

/-- C9: a valid upload whose prompt field is present but empty gets a
response whose serialized payload carries usedPrompt "(default prompt)":
the fallback `prompt or ...` fires on the empty string too. -/
theorem empty_prompt_uses_default
    (uploadDir : List String) (tempBase : String) (scratch : List String)
    (cth : Option String) (cl : Option Nat) (f : UploadField)
    (hct : ctypeMain (cth.getD "") = "multipart/form-data")
    (hcl : cl.getD 0 ≤ 104857600)
    (hfn : f.filename.getD "" ≠ "")
    (hext : strLower (pySuffix (pyName (f.filename.getD ""))) = ".gltf" ∨
            strLower (pySuffix (pyName (f.filename.getD ""))) = ".glb") :
    ∃ r, (do_POST uploadDir tempBase scratch
        { path := "/api/generate", contentTypeHeader := cth, contentLength := cl,
          form := { model := some f, prompt := some "" } }).1 = Except.ok r ∧
      ∃ fp, r.body = utf8Bytes (jsonDumps (generate_video_using_veo fp (some ""))) ∧
        (generate_video_using_veo fp (some "")).usedPrompt = "(default prompt)" := by
  unfold do_POST
  rw [do_POST_generic_passes_checks _ _ _ _ _ _ _ hct hcl]
  unfold handle_parsed_form
  try dsimp only
  rw [if_neg hfn]
  try dsimp only
  rw [if_neg (not_not_intro hext)]
  try dsimp only
  exact ⟨_, rfl, _, rfl, rfl⟩

/-- C10: a POST /api/generate with no Content-Length header is treated as
declaring length 0, is never answered 413, and proceeds to the parsed
multipart form. -/
theorem missing_content_length_defaults_zero
    (veo : String → Option String → Except PyExc Payload)
    (uploadDir : List String) (tempBase : String) (scratch : List String)
    (cth : Option String) (form : FormData)
    (hct : ctypeMain (cth.getD "") = "multipart/form-data") :
    ((none : Option Nat).getD 0 = 0) ∧
    do_POST_generic veo uploadDir tempBase scratch
        { path := "/api/generate", contentTypeHeader := cth,
          contentLength := none, form := form } =
      handle_parsed_form veo uploadDir tempBase scratch form ∧
    (∀ r, (do_POST_generic veo uploadDir tempBase scratch
        { path := "/api/generate", contentTypeHeader := cth,
          contentLength := none, form := form }).1 = Except.ok r →
      r.status ≠ 413) := by
  have heq := do_POST_generic_passes_checks veo uploadDir tempBase scratch cth none form hct
    (by simp)
  refine ⟨rfl, heq, ?_⟩
  intro r hr
  rw [heq] at hr
  rcases handle_parsed_form_ok_status veo uploadDir tempBase scratch form r hr with
    h | h | h <;> omega

/-! ## Witnesses -/

/-- Witness for C3 at a concrete oversized request. -/
theorem oversized_content_length_gets_413_witness :
    ctypeMain ((some "multipart/form-data").getD "") = "multipart/form-data" ∧
    104857600 < 104857601 ∧
    (do_POST ["app", "uploads"] "tmpq1w2e3r4" []
        { path := "/api/generate", contentTypeHeader := some "multipart/form-data",
          contentLength := some 104857601,
          form := { model := none, prompt := none } } =
      (Except.ok (send_error 413 "File too large"), []) ∧
    (send_error 413 "File too large").status = 413) :=
  ⟨rfl, by decide,
    oversized_content_length_gets_413 ["app", "uploads"] "tmpq1w2e3r4" []
      (some "multipart/form-data") 104857601 { model := none, prompt := none }
      rfl (by decide)⟩

/-- Witness for C4 at a concrete form with no model field. -/
theorem missing_model_field_gets_400_witness :
    ctypeMain ((some "multipart/form-data").getD "") = "multipart/form-data" ∧
    ((some 10 : Option Nat).getD 0 ≤ 104857600) ∧
    (do_POST ["app", "uploads"] "tmpq1w2e3r4" []
        { path := "/api/generate", contentTypeHeader := some "multipart/form-data",
          contentLength := some 10,
          form := { model := none, prompt := none } } =
      (Except.ok (send_error 400 "Missing model file upload"), []) ∧
    (send_error 400 "Missing model file upload").status = 400) :=
  ⟨rfl, by decide,
    missing_model_field_gets_400 ["app", "uploads"] "tmpq1w2e3r4" []
      (some "multipart/form-data") (some 10) { model := none, prompt := none }
      rfl (by decide) (Or.inl rfl)⟩

/-- Witness for C5 at a concrete upload named car.png. -/
theorem bad_extension_gets_415_witness :
    ctypeMain ((some "multipart/form-data").getD "") = "multipart/form-data" ∧
    ((some 10 : Option Nat).getD 0 ≤ 104857600) ∧
    ({ filename := some "car.png", content := [1] } : UploadField).filename.getD "" ≠ "" ∧
    ¬ (strLower (pySuffix (pyName (({ filename := some "car.png", content := [1] } :
          UploadField).filename.getD ""))) = ".gltf" ∨
       strLower (pySuffix (pyName (({ filename := some "car.png", content := [1] } :
          UploadField).filename.getD ""))) = ".glb") ∧
    (do_POST ["app", "uploads"] "tmpq1w2e3r4" []
        { path := "/api/generate", contentTypeHeader := some "multipart/form-data",
          contentLength := some 10,
          form := { model := some { filename := some "car.png", content := [1] },
                    prompt := none } } =
      (Except.ok (send_error 415 "Only GLTF/GLB files are supported"), []) ∧
    (send_error 415 "Only GLTF/GLB files are supported").status = 415) :=
  ⟨rfl, by decide, by decide, by decide,
    bad_extension_gets_415 ["app", "uploads"] "tmpq1w2e3r4" []
      (some "multipart/form-data") (some 10)
      { filename := some "car.png", content := [1] } none
      rfl (by decide) (by decide) (by decide)⟩

/-- Witness for C8: GET /style.css with the file present under the root. -/
theorem get_existing_file_success_witness :
    List.lookup (osResolve (joinedPath ["srv", "public"] "/style.css"))
        [(["srv", "public", "style.css"], [104, 105])] = some [104, 105] ∧
    underRoot ["srv", "public"]
        (osResolve (joinedPath ["srv", "public"] "/style.css")) = true ∧
    (do_GET ["srv", "public"] [(["srv", "public", "style.css"], [104, 105])] "/style.css" =
      { status := 200
        headers := [("Access-Control-Allow-Origin", "*"),
                    ("Cache-Control", "no-cache"),
                    ("Content-Type", guess_type (pySuffix (pathListName
                      (joinedPath ["srv", "public"] "/style.css"))))]
        body := [104, 105] } ∧
    guess_type ".css" = "text/css" ∧
    guess_type ".js" = "application/javascript" ∧
    guess_type ".html" = "text/html" ∧
    guess_type ".htm" = "text/html" ∧
    guess_type ".json" = "application/json" ∧
    guess_type ".png" = "image/png" ∧
    guess_type ".jpg" = "image/jpeg" ∧
    guess_type ".jpeg" = "image/jpeg" ∧
    guess_type ".svg" = "image/svg+xml" ∧
    (∀ sfx, sfx ≠ ".css" → sfx ≠ ".js" → sfx ≠ ".html" → sfx ≠ ".htm" →
      sfx ≠ ".json" → sfx ≠ ".png" → sfx ≠ ".jpg" → sfx ≠ ".jpeg" → sfx ≠ ".svg" →
      guess_type sfx = "application/octet-stream")) :=
  ⟨rfl, rfl,
    get_existing_file_success ["srv", "public"]
      [(["srv", "public", "style.css"], [104, 105])] "/style.css" [104, 105] rfl rfl⟩

/-- Witness for C9: uploading x.glb with an empty prompt field. -/
theorem empty_prompt_uses_default_witness :
    ctypeMain ((some "multipart/form-data").getD "") = "multipart/form-data" ∧
    ((none : Option Nat).getD 0 ≤ 104857600) ∧
    ({ filename := some "x.glb", content := [] } : UploadField).filename.getD "" ≠ "" ∧
    (strLower (pySuffix (pyName (({ filename := some "x.glb", content := [] } :
        UploadField).filename.getD ""))) = ".gltf" ∨
     strLower (pySuffix (pyName (({ filename := some "x.glb", content := [] } :
        UploadField).filename.getD ""))) = ".glb") ∧
    (∃ r, (do_POST ["app", "uploads"] "tmpq1w2e3r4" []
        { path := "/api/generate", contentTypeHeader := some "multipart/form-data",
          contentLength := none,
          form := { model := some { filename := some "x.glb", content := [] },
                    prompt := some "" } }).1 = Except.ok r ∧
      ∃ fp, r.body = utf8Bytes (jsonDumps (generate_video_using_veo fp (some ""))) ∧
        (generate_video_using_veo fp (some "")).usedPrompt = "(default prompt)") :=
  ⟨rfl, by decide, by decide, Or.inr (by decide),
    empty_prompt_uses_default ["app", "uploads"] "tmpq1w2e3r4" []
      (some "multipart/form-data") none { filename := some "x.glb", content := [] }
      rfl (by decide) (by decide) (Or.inr (by decide))⟩

/-- Witness for C10 at a concrete request with no Content-Length. -/
theorem missing_content_length_defaults_zero_witness :
    ctypeMain ((some "multipart/form-data").getD "") = "multipart/form-data" ∧
    (((none : Option Nat).getD 0 = 0) ∧
    do_POST_generic (fun p pr => Except.ok (generate_video_using_veo p pr))
        ["app", "uploads"] "tmpq1w2e3r4" []
        { path := "/api/generate", contentTypeHeader := some "multipart/form-data",
          contentLength := none, form := { model := none, prompt := none } } =
      handle_parsed_form (fun p pr => Except.ok (generate_video_using_veo p pr))
        ["app", "uploads"] "tmpq1w2e3r4" [] { model := none, prompt := none } ∧
    (∀ r, (do_POST_generic (fun p pr => Except.ok (generate_video_using_veo p pr))
        ["app", "uploads"] "tmpq1w2e3r4" []
        { path := "/api/generate", contentTypeHeader := some "multipart/form-data",
          contentLength := none, form := { model := none, prompt := none } }).1 =
        Except.ok r → r.status ≠ 413)) :=
  ⟨rfl,
    missing_content_length_defaults_zero
      (fun p pr => Except.ok (generate_video_using_veo p pr))
      ["app", "uploads"] "tmpq1w2e3r4" [] (some "multipart/form-data")
      { model := none, prompt := none } rfl⟩

/-- Witness for the amended C6 at the prompt "ad for a car". -/
theorem veo_stub_payload_spec_witness :
    ("ad for a car" ≠ ("" : String)) ∧
    (generate_video_using_veo "car.glb" (some "ad for a car")).usedPrompt = "ad for a car" :=
  ⟨by decide, (veo_stub_payload_spec "car.glb" "ad for a car").2.2.2.1 (by decide)⟩

end VeoServer
